import Mathlib

/-
  Verification of `src/lib/shopify/fulfillment.js`.

  The file exports two functions, `getFulfillmentOrders` and
  `getFulfillments`.  Each makes a single call to the collaborator
  `callShopifyAdmin`; on success it normalises the returned JSON object,
  on failure it classifies the thrown error by the first parenthesized
  decimal number found in the error message.

  The collaborator is modelled as an explicit outcome value (a returned
  response object, or an error message string), so each JS function
  becomes a total Lean function on outcomes.
-/

namespace Shopify

/-- Outcome of the single `callShopifyAdmin` call: either a parsed JSON
response object, or a thrown `Error` carrying a textual message. -/
inductive CallOutcome (α : Type) where
  | ok (response : α)
  | err (message : String)
deriving Repr, DecidableEq

/-- A fulfillment record; this component only reads its `id` field. -/
structure Fulfillment where
  id : Int
deriving Repr, DecidableEq

/-- JSON body returned for `/orders/{orderId}/fulfillments.json`:
the `fulfillments` field may be absent. -/
structure OrdersResponse where
  fulfillments : Option (List Fulfillment)
deriving Repr, DecidableEq

/-- An order object as embedded in `/orders/{orderId}.json`; each field
may be absent. -/
structure Order where
  id : Option Int
  name : Option String
  fulfillments : Option (List Fulfillment)
deriving Repr, DecidableEq

/-- The empty object `{}` used as default for `response.order || {}`. -/
def emptyOrder : Order := { id := none, name := none, fulfillments := none }

/-- JSON body returned for `/orders/{orderId}.json`: the `order` field
may be absent. -/
structure OrderResponse where
  order : Option Order
deriving Repr, DecidableEq

/-- Value of a nonempty digit sequence, as `parseInt(ds, 10)` computes it. -/
def digitsVal (ds : List Char) : Nat :=
  ds.foldl (fun acc c => 10 * acc + (c.toNat - 48)) 0

/-- Leftmost match of the regex `\((\d+)\)` over a character list, as
`message.match(/\((\d+)\)/)` finds it: scan left to right for a `(`
followed by at least one digit and then `)`; return the value of the digits.
The digit run is maximal, as for the greedy `\d+` (a shorter run is
followed by a digit, not by `)`, so backtracking never helps). -/
def findParen : List Char → Option Nat
  | [] => none
  | c :: rest =>
      if c = '(' then
        let ds := rest.takeWhile (fun d => d.isDigit)
        if 0 < ds.length ∧ (rest.drop ds.length).head? = some ')' then
          some (digitsVal ds)
        else findParen rest
      else findParen rest

/-- Source lines: `const statusMatch = error.message.match(/\((\d+)\)/);`
`const httpStatus = statusMatch ? parseInt(statusMatch[1], 10) : null;` -/
def extractStatus (message : String) : Option Nat :=
  findParen message.data

/-- Shape of the failure objects built in both `catch` blocks (both
blocks construct objects with exactly these seven keys). -/
structure FailureResult where
  success : Bool
  httpStatus : Nat
  error : String
  message : String
  fulfillments : List Fulfillment
  count : Nat
  fulfillmentIds : List Int
deriving Repr, DecidableEq

/-- Shape of the success object of `getFulfillmentOrders`. -/
structure OrdersSuccess where
  success : Bool
  httpStatus : Nat
  fulfillments : List Fulfillment
  count : Nat
  fulfillmentIds : List Int
  rawResponse : OrdersResponse
deriving Repr, DecidableEq

/-- Result of `getFulfillmentOrders`: one of its two object shapes. -/
inductive OrdersResult where
  | success (r : OrdersSuccess)
  | failure (r : FailureResult)
deriving Repr, DecidableEq

/-- Shape of the success object of `getFulfillments` (additionally
carries `orderId` and `orderName`, possibly `undefined`). -/
structure OrderSuccess where
  success : Bool
  httpStatus : Nat
  fulfillments : List Fulfillment
  count : Nat
  fulfillmentIds : List Int
  orderId : Option Int
  orderName : Option String
  rawResponse : OrderResponse
deriving Repr, DecidableEq

/-- Result of `getFulfillments`: one of its two object shapes. -/
inductive OrderResult where
  | success (r : OrderSuccess)
  | failure (r : FailureResult)
deriving Repr, DecidableEq

/-- The function `getFulfillmentOrders(orderId)`, as a function of the outcome of its
single `callShopifyAdmin` call.  In the catch block, `httpStatus || 500`
yields 500 exactly when the parsed value is `null` (no match) or `0`
(the only falsy number a parsed digit run can produce). -/
def getFulfillmentOrders : CallOutcome OrdersResponse → OrdersResult
  | CallOutcome.ok response =>
      OrdersResult.success
        { success := true
          httpStatus := 200
          fulfillments := response.fulfillments.getD []
          count :=
            match response.fulfillments with
            | some fs => fs.length
            | none => 0
          fulfillmentIds :=
            match response.fulfillments with
            | some fs => fs.map (fun f => f.id)
            | none => []
          rawResponse := response }
  | CallOutcome.err message =>
      match extractStatus message with
      | some code =>
          if code = 401 ∨ code = 403 then
            OrdersResult.failure
              { success := false
                httpStatus := code
                error := "SHOPIFY_ADMIN_AUTH_ERROR"
                message := message
                fulfillments := []
                count := 0
                fulfillmentIds := [] }
          else
            OrdersResult.failure
              { success := false
                httpStatus := if code = 0 then 500 else code
                error := "SHOPIFY_FULFILLMENT_FETCH_ERROR"
                message := message
                fulfillments := []
                count := 0
                fulfillmentIds := [] }
      | none =>
          OrdersResult.failure
            { success := false
              httpStatus := 500
              error := "SHOPIFY_FULFILLMENT_FETCH_ERROR"
              message := message
              fulfillments := []
              count := 0
              fulfillmentIds := [] }

/-- The function `getFulfillments(orderId)`, as a function of the outcome of its
single `callShopifyAdmin` call.  The catch block is a duplicate of the
one in `getFulfillmentOrders`. -/
def getFulfillments : CallOutcome OrderResponse → OrderResult
  | CallOutcome.ok response =>
      let order := response.order.getD emptyOrder
      let fulfillments := order.fulfillments.getD []
      OrderResult.success
        { success := true
          httpStatus := 200
          fulfillments := fulfillments
          count := fulfillments.length
          fulfillmentIds := fulfillments.map (fun f => f.id)
          orderId := order.id
          orderName := order.name
          rawResponse := response }
  | CallOutcome.err message =>
      match extractStatus message with
      | some code =>
          if code = 401 ∨ code = 403 then
            OrderResult.failure
              { success := false
                httpStatus := code
                error := "SHOPIFY_ADMIN_AUTH_ERROR"
                message := message
                fulfillments := []
                count := 0
                fulfillmentIds := [] }
          else
            OrderResult.failure
              { success := false
                httpStatus := if code = 0 then 500 else code
                error := "SHOPIFY_FULFILLMENT_FETCH_ERROR"
                message := message
                fulfillments := []
                count := 0
                fulfillmentIds := [] }
      | none =>
          OrderResult.failure
            { success := false
              httpStatus := 500
              error := "SHOPIFY_FULFILLMENT_FETCH_ERROR"
              message := message
              fulfillments := []
              count := 0
              fulfillmentIds := [] }

/-- Failure payload of a result, when the result is a failure. -/
def OrdersResult.failurePayload : OrdersResult → Option FailureResult
  | OrdersResult.failure r => some r
  | OrdersResult.success _ => none

/-- Failure payload of a result, when the result is a failure. -/
def OrderResult.failurePayload : OrderResult → Option FailureResult
  | OrderResult.failure r => some r
  | OrderResult.success _ => none

/-- The failure object both catch blocks build from a successfully
parsed status code and the original message. -/
def classifyCode (code : Nat) (message : String) : FailureResult :=
  if code = 401 ∨ code = 403 then
    { success := false
      httpStatus := code
      error := "SHOPIFY_ADMIN_AUTH_ERROR"
      message := message
      fulfillments := []
      count := 0
      fulfillmentIds := [] }
  else
    { success := false
      httpStatus := if code = 0 then 500 else code
      error := "SHOPIFY_FULFILLMENT_FETCH_ERROR"
      message := message
      fulfillments := []
      count := 0
      fulfillmentIds := [] }

/-- Specification of a match of `\((\d+)\)` by its start position: the
pattern matches l at index i with value v iff the characters from index
i on begin with a parenthesis, a nonempty digit run of value v, and a
closing parenthesis right after the (maximal) digit run — the only way
the greedy `\d+` can succeed at that position. -/
def matchValueAt (l : List Char) (i : Nat) : Option Nat :=
  match l.drop i with
  | [] => none
  | c :: rest =>
      if c = '(' then
        if 0 < (rest.takeWhile (fun d => d.isDigit)).length ∧
            (rest.drop (rest.takeWhile (fun d => d.isDigit)).length).head? =
              some ')' then
          some (digitsVal (rest.takeWhile (fun d => d.isDigit)))
        else none
      else none

theorem getFulfillmentOrders_err (m : String) (v : Nat)
    (h : extractStatus m = some v) :
    getFulfillmentOrders (CallOutcome.err m) =
      OrdersResult.failure (classifyCode v m) := by
  by_cases hv : v = 401 ∨ v = 403 <;>
    simp [getFulfillmentOrders, classifyCode, h, hv]

theorem getFulfillments_err (m : String) (v : Nat)
    (h : extractStatus m = some v) :
    getFulfillments (CallOutcome.err m) =
      OrderResult.failure (classifyCode v m) := by
  by_cases hv : v = 401 ∨ v = 403 <;>
    simp [getFulfillments, classifyCode, h, hv]

theorem getFulfillmentOrders_err_none (m : String)
    (h : extractStatus m = none) :
    getFulfillmentOrders (CallOutcome.err m) =
      OrdersResult.failure
        { success := false
          httpStatus := 500
          error := "SHOPIFY_FULFILLMENT_FETCH_ERROR"
          message := m
          fulfillments := []
          count := 0
          fulfillmentIds := [] } := by
  simp [getFulfillmentOrders, h]

theorem getFulfillments_err_none (m : String)
    (h : extractStatus m = none) :
    getFulfillments (CallOutcome.err m) =
      OrderResult.failure
        { success := false
          httpStatus := 500
          error := "SHOPIFY_FULFILLMENT_FETCH_ERROR"
          message := m
          fulfillments := []
          count := 0
          fulfillmentIds := [] } := by
  simp [getFulfillments, h]

theorem getFulfillments_ok_order (resp : OrderResponse) (ord : Order)
    (h : resp.order = some ord) :
    getFulfillments (CallOutcome.ok resp) =
      OrderResult.success
        { success := true
          httpStatus := 200
          fulfillments := ord.fulfillments.getD []
          count := (ord.fulfillments.getD []).length
          fulfillmentIds := (ord.fulfillments.getD []).map (fun f => f.id)
          orderId := ord.id
          orderName := ord.name
          rawResponse := resp } := by
  simp [getFulfillments, h]

theorem getFulfillments_ok_noOrder (resp : OrderResponse)
    (h : resp.order = none) :
    getFulfillments (CallOutcome.ok resp) =
      OrderResult.success
        { success := true
          httpStatus := 200
          fulfillments := []
          count := 0
          fulfillmentIds := []
          orderId := none
          orderName := none
          rawResponse := resp } := by
  simp [getFulfillments, h, emptyOrder]

/-- Claim C1: on a returned JSON object whose `fulfillments` field is an
array, either function yields a success result carrying that array
unmodified, its length as `count`, the ids in order, and the original
object as `rawResponse` (for `getFulfillments`, over `order.fulfillments`). -/
theorem success_maps_fulfillments :
    (∀ (resp : OrdersResponse) (fs : List Fulfillment),
      resp.fulfillments = some fs →
      getFulfillmentOrders (CallOutcome.ok resp) =
        OrdersResult.success
          { success := true
            httpStatus := 200
            fulfillments := fs
            count := fs.length
            fulfillmentIds := fs.map (fun f => f.id)
            rawResponse := resp }) ∧
    (∀ (resp : OrderResponse) (ord : Order) (fs : List Fulfillment),
      resp.order = some ord → ord.fulfillments = some fs →
      getFulfillments (CallOutcome.ok resp) =
        OrderResult.success
          { success := true
            httpStatus := 200
            fulfillments := fs
            count := fs.length
            fulfillmentIds := fs.map (fun f => f.id)
            orderId := ord.id
            orderName := ord.name
            rawResponse := resp }) := by
  constructor
  · intro resp fs h
    simp [getFulfillmentOrders, h]
  · intro resp ord fs h1 h2
    simp [getFulfillments, h1, h2]

theorem success_maps_fulfillments_check :
    getFulfillmentOrders
        (CallOutcome.ok { fulfillments := some [{ id := 1 }, { id := 2 }] }) =
      OrdersResult.success
        { success := true
          httpStatus := 200
          fulfillments := [{ id := 1 }, { id := 2 }]
          count := 2
          fulfillmentIds := [1, 2]
          rawResponse := { fulfillments := some [{ id := 1 }, { id := 2 }] } } :=
  success_maps_fulfillments.1 _ [{ id := 1 }, { id := 2 }] rfl

/-- Claim C2: a collaborator error whose first parenthesized
number parses to 401 or 403 yields, from either function, the failure
object with `error = SHOPIFY_ADMIN_AUTH_ERROR`, the parsed code as
`httpStatus`, the original message, and empty fulfillment data. -/
theorem auth_error_result :
    ∀ (message : String) (code : Nat),
      extractStatus message = some code →
      code = 401 ∨ code = 403 →
      getFulfillmentOrders (CallOutcome.err message) =
        OrdersResult.failure
          { success := false
            httpStatus := code
            error := "SHOPIFY_ADMIN_AUTH_ERROR"
            message := message
            fulfillments := []
            count := 0
            fulfillmentIds := [] } ∧
      getFulfillments (CallOutcome.err message) =
        OrderResult.failure
          { success := false
            httpStatus := code
            error := "SHOPIFY_ADMIN_AUTH_ERROR"
            message := message
            fulfillments := []
            count := 0
            fulfillmentIds := [] } := by
  intro m code h hc
  constructor <;> simp [getFulfillmentOrders, getFulfillments, h, hc]

theorem auth_error_result_check :
    extractStatus "Shopify Admin API error (401): Invalid API key" = some 401 ∧
    getFulfillments
        (CallOutcome.err "Shopify Admin API error (401): Invalid API key") =
      OrderResult.failure
        { success := false
          httpStatus := 401
          error := "SHOPIFY_ADMIN_AUTH_ERROR"
          message := "Shopify Admin API error (401): Invalid API key"
          fulfillments := []
          count := 0
          fulfillmentIds := [] } :=
  ⟨rfl, (auth_error_result "Shopify Admin API error (401): Invalid API key" 401
    rfl (Or.inl rfl)).2⟩

/-- Claim C4: a collaborator error whose message contains no
parenthesized number yields, from either function, the failure object
with `httpStatus = 500` and `error = SHOPIFY_FULFILLMENT_FETCH_ERROR`. -/
theorem no_status_defaults_500 :
    ∀ message : String,
      extractStatus message = none →
      getFulfillmentOrders (CallOutcome.err message) =
        OrdersResult.failure
          { success := false
            httpStatus := 500
            error := "SHOPIFY_FULFILLMENT_FETCH_ERROR"
            message := message
            fulfillments := []
            count := 0
            fulfillmentIds := [] } ∧
      getFulfillments (CallOutcome.err message) =
        OrderResult.failure
          { success := false
            httpStatus := 500
            error := "SHOPIFY_FULFILLMENT_FETCH_ERROR"
            message := message
            fulfillments := []
            count := 0
            fulfillmentIds := [] } := by
  intro m h
  constructor <;> simp [getFulfillmentOrders, getFulfillments, h]

theorem no_status_defaults_500_check :
    extractStatus "network timeout" = none ∧
    getFulfillmentOrders (CallOutcome.err "network timeout") =
      OrdersResult.failure
        { success := false
          httpStatus := 500
          error := "SHOPIFY_FULFILLMENT_FETCH_ERROR"
          message := "network timeout"
          fulfillments := []
          count := 0
          fulfillmentIds := [] } :=
  ⟨rfl, (no_status_defaults_500 "network timeout" rfl).1⟩

/-- Claim C3, counterexample: when the first parenthesized number
parses to 0, the `httpStatus || 500` fallback fires, so the result
carries 500, not the parsed code 0 as the claim states. -/
theorem fetch_error_status_zero_counterexample :
    extractStatus "Shopify Admin API error (0): empty status" = some 0 ∧
    getFulfillmentOrders
        (CallOutcome.err "Shopify Admin API error (0): empty status") =
      OrdersResult.failure
        { success := false
          httpStatus := 500
          error := "SHOPIFY_FULFILLMENT_FETCH_ERROR"
          message := "Shopify Admin API error (0): empty status"
          fulfillments := []
          count := 0
          fulfillmentIds := [] } ∧
    getFulfillmentOrders
        (CallOutcome.err "Shopify Admin API error (0): empty status") ≠
      OrdersResult.failure
        { success := false
          httpStatus := 0
          error := "SHOPIFY_FULFILLMENT_FETCH_ERROR"
          message := "Shopify Admin API error (0): empty status"
          fulfillments := []
          count := 0
          fulfillmentIds := [] } :=
  ⟨rfl, rfl, by decide⟩

/-- Claim C3, amended: a parsed code not in 401/403 yields, from either
function, the failure object with `error = SHOPIFY_FULFILLMENT_FETCH_ERROR`
and `httpStatus` equal to the parsed code when it is nonzero, and 500
when the parsed code is 0 (`code || 500` in the source). -/
theorem fetch_error_result :
    ∀ (message : String) (code : Nat),
      extractStatus message = some code →
      code ≠ 401 → code ≠ 403 →
      getFulfillmentOrders (CallOutcome.err message) =
        OrdersResult.failure
          { success := false
            httpStatus := if code = 0 then 500 else code
            error := "SHOPIFY_FULFILLMENT_FETCH_ERROR"
            message := message
            fulfillments := []
            count := 0
            fulfillmentIds := [] } ∧
      getFulfillments (CallOutcome.err message) =
        OrderResult.failure
          { success := false
            httpStatus := if code = 0 then 500 else code
            error := "SHOPIFY_FULFILLMENT_FETCH_ERROR"
            message := message
            fulfillments := []
            count := 0
            fulfillmentIds := [] } := by
  intro m code h h1 h3
  have hc : ¬ (code = 401 ∨ code = 403) := by
    rintro (rfl | rfl)
    · exact h1 rfl
    · exact h3 rfl
  constructor <;> simp [getFulfillmentOrders, getFulfillments, h, hc]

theorem fetch_error_result_check :
    extractStatus "Shopify Admin API error (404): Not Found" = some 404 ∧
    getFulfillments
        (CallOutcome.err "Shopify Admin API error (404): Not Found") =
      OrderResult.failure
        { success := false
          httpStatus := 404
          error := "SHOPIFY_FULFILLMENT_FETCH_ERROR"
          message := "Shopify Admin API error (404): Not Found"
          fulfillments := []
          count := 0
          fulfillmentIds := [] } :=
  ⟨rfl, (fetch_error_result "Shopify Admin API error (404): Not Found" 404
    rfl (by decide) (by decide)).2⟩

/-- Claim C5: on every collaborator outcome, each function returns a
structured result (the embedded functions are total): every error
outcome becomes a failure object with `success = false`, and every
returned object becomes a success object with `success = true`; no
exception propagates. -/
theorem failures_are_structured :
    (∀ message : String, ∃ r,
      getFulfillmentOrders (CallOutcome.err message) = OrdersResult.failure r ∧
      r.success = false) ∧
    (∀ message : String, ∃ r,
      getFulfillments (CallOutcome.err message) = OrderResult.failure r ∧
      r.success = false) ∧
    (∀ response : OrdersResponse, ∃ r,
      getFulfillmentOrders (CallOutcome.ok response) = OrdersResult.success r ∧
      r.success = true) ∧
    (∀ response : OrderResponse, ∃ r,
      getFulfillments (CallOutcome.ok response) = OrderResult.success r ∧
      r.success = true) := by
  refine ⟨?_, ?_, ?_, ?_⟩
  · intro m
    cases h : extractStatus m with
    | none => exact ⟨_, getFulfillmentOrders_err_none m h, rfl⟩
    | some code =>
        refine ⟨_, getFulfillmentOrders_err m code h, ?_⟩
        by_cases hc : code = 401 ∨ code = 403 <;> simp [classifyCode, hc]
  · intro m
    cases h : extractStatus m with
    | none => exact ⟨_, getFulfillments_err_none m h, rfl⟩
    | some code =>
        refine ⟨_, getFulfillments_err m code h, ?_⟩
        by_cases hc : code = 401 ∨ code = 403 <;> simp [classifyCode, hc]
  · intro resp
    exact ⟨_, rfl, rfl⟩
  · intro resp
    exact ⟨_, rfl, rfl⟩

/-- Claim C6: a returned object with no `fulfillments` field (for
`getFulfillments`, a missing `order` or an order with no `fulfillments`
field) yields a success result with empty fulfillment data. -/
theorem missing_fulfillments_default :
    (∀ resp : OrdersResponse,
      resp.fulfillments = none →
      getFulfillmentOrders (CallOutcome.ok resp) =
        OrdersResult.success
          { success := true
            httpStatus := 200
            fulfillments := []
            count := 0
            fulfillmentIds := []
            rawResponse := resp }) ∧
    (∀ resp : OrderResponse,
      (resp.order = none ∨
        ∃ ord, resp.order = some ord ∧ ord.fulfillments = none) →
      ∃ r, getFulfillments (CallOutcome.ok resp) = OrderResult.success r ∧
        r.fulfillments = [] ∧ r.count = 0 ∧ r.fulfillmentIds = []) := by
  constructor
  · intro resp h
    simp [getFulfillmentOrders, h]
  · rintro resp (h | ⟨ord, h, hf⟩)
    · exact ⟨_, getFulfillments_ok_noOrder resp h, rfl, rfl, rfl⟩
    · exact ⟨_, getFulfillments_ok_order resp ord h,
        by simp [hf], by simp [hf], by simp [hf]⟩

theorem missing_fulfillments_default_check :
    getFulfillmentOrders (CallOutcome.ok { fulfillments := none }) =
      OrdersResult.success
        { success := true
          httpStatus := 200
          fulfillments := []
          count := 0
          fulfillmentIds := []
          rawResponse := { fulfillments := none } } :=
  missing_fulfillments_default.1 { fulfillments := none } rfl

/-- Claim C7: every successful `getFulfillments` call carries `orderId`
and `orderName` equal to the fields `id` and `name` of the returned order,
and both are absent when the order object is empty or absent. -/
theorem order_metadata :
    (∀ (resp : OrderResponse) (ord : Order),
      resp.order = some ord →
      ∃ r, getFulfillments (CallOutcome.ok resp) = OrderResult.success r ∧
        r.orderId = ord.id ∧ r.orderName = ord.name) ∧
    (∀ resp : OrderResponse,
      resp.order = none →
      ∃ r, getFulfillments (CallOutcome.ok resp) = OrderResult.success r ∧
        r.orderId = none ∧ r.orderName = none) ∧
    (∀ (resp : OrderResponse) (ord : Order),
      resp.order = some ord → ord.id = none → ord.name = none →
      ∃ r, getFulfillments (CallOutcome.ok resp) = OrderResult.success r ∧
        r.orderId = none ∧ r.orderName = none) := by
  refine ⟨?_, ?_, ?_⟩
  · intro resp ord h
    exact ⟨_, getFulfillments_ok_order resp ord h, rfl, rfl⟩
  · intro resp h
    exact ⟨_, getFulfillments_ok_noOrder resp h, rfl, rfl⟩
  · intro resp ord h hid hname
    exact ⟨_, getFulfillments_ok_order resp ord h,
      by simp [hid], by simp [hname]⟩

theorem order_metadata_check :
    ∃ r, getFulfillments
        (CallOutcome.ok
          { order := some
              { id := some 42
                name := some "#1001"
                fulfillments := some [{ id := 7 }] } }) =
      OrderResult.success r ∧
    r.orderId = some 42 ∧ r.orderName = some "#1001" :=
  order_metadata.1
    { order := some
        { id := some 42
          name := some "#1001"
          fulfillments := some [{ id := 7 }] } }
    { id := some 42
      name := some "#1001"
      fulfillments := some [{ id := 7 }] }
    rfl

/-- Claim C8: the duplicated error-classification logic of the two
functions is identical: for every collaborator error message, both
functions produce the same failure object (and both do produce one). -/
theorem error_logic_identical :
    ∀ message : String,
      OrdersResult.failurePayload (getFulfillmentOrders (CallOutcome.err message)) =
        OrderResult.failurePayload (getFulfillments (CallOutcome.err message)) ∧
      (OrdersResult.failurePayload
        (getFulfillmentOrders (CallOutcome.err message))).isSome = true := by
  intro m
  cases h : extractStatus m with
  | none =>
      constructor <;>
        simp [getFulfillmentOrders, getFulfillments, h,
          OrdersResult.failurePayload, OrderResult.failurePayload]
  | some code =>
      by_cases hc : code = 401 ∨ code = 403 <;>
        constructor <;>
          simp [getFulfillmentOrders, getFulfillments, h, hc,
            OrdersResult.failurePayload, OrderResult.failurePayload]

theorem takeWhile_digits (ds rest : List Char) (hd : ∀ c ∈ ds, c.isDigit) :
    List.takeWhile (fun d => d.isDigit) (ds ++ ')' :: rest) = ds := by
  induction ds with
  | nil => rfl
  | cons c cs ih =>
      have hc : c.isDigit = true := hd c (List.mem_cons_self c cs)
      have ihs := ih (fun x hx => hd x (List.mem_cons_of_mem c hx))
      simp [List.takeWhile, hc, ihs]

theorem drop_digits (ds rest : List Char) :
    List.drop ds.length (ds ++ rest) = rest := by
  induction ds with
  | nil => rfl
  | cons c cs ih =>
      rw [List.cons_append, List.length_cons, List.drop_succ_cons]
      exact ih

theorem findParen_skip (c : Char) (l : List Char) (h : ¬ c = '(') :
    findParen (c :: l) = findParen l := by
  simp [findParen, h]

theorem findParen_cons_lparen (l : List Char) :
    findParen ('(' :: l) =
      if 0 < (List.takeWhile (fun d => d.isDigit) l).length ∧
          (List.drop (List.takeWhile (fun d => d.isDigit) l).length l).head? =
            some ')' then
        some (digitsVal (List.takeWhile (fun d => d.isDigit) l))
      else findParen l := by
  simp [findParen]

theorem findParen_match :
    ∀ pre : List Char, '(' ∉ pre →
    ∀ ds rest : List Char, ds ≠ [] → (∀ c ∈ ds, c.isDigit) →
    findParen (pre ++ ('(' :: ds) ++ (')' :: rest)) = some (digitsVal ds) := by
  intro pre
  induction pre with
  | nil =>
      intro _ ds rest hne hd
      have hlen : 0 < ds.length := List.length_pos.mpr hne
      rw [List.nil_append, List.cons_append, findParen_cons_lparen,
        takeWhile_digits ds rest hd, drop_digits]
      simp [hlen]
  | cons c cs ih =>
      intro hpre ds rest hne hd
      have hcs : '(' ∉ cs := fun hm => hpre (List.mem_cons_of_mem c hm)
      have hc : ¬ c = '(' := by
        intro hcc
        rw [hcc] at hpre
        exact hpre (List.mem_cons_self '(' cs)
      rw [List.cons_append, List.cons_append, findParen_skip c _ hc]
      exact ih hcs ds rest hne hd

theorem extractStatus_mk (l : List Char) :
    extractStatus (String.mk l) = findParen l := rfl

theorem matchValueAt_succ (c : Char) (l : List Char) (i : Nat) :
    matchValueAt (c :: l) (i + 1) = matchValueAt l i := by
  simp [matchValueAt, List.drop_succ_cons]

theorem matchValueAt_zero_lparen (l : List Char) :
    matchValueAt ('(' :: l) 0 =
      if 0 < (List.takeWhile (fun d => d.isDigit) l).length ∧
          (List.drop (List.takeWhile (fun d => d.isDigit) l).length l).head? =
            some ')' then
        some (digitsVal (List.takeWhile (fun d => d.isDigit) l))
      else none := by
  simp [matchValueAt]

theorem matchValueAt_zero_of_ne (c : Char) (l : List Char) (h : ¬ c = '(') :
    matchValueAt (c :: l) 0 = none := by
  simp [matchValueAt, h]

theorem findParen_eq_first_match :
    ∀ (l : List Char) (i v : Nat),
      matchValueAt l i = some v →
      (∀ k, k < i → matchValueAt l k = none) →
      findParen l = some v := by
  intro l
  induction l with
  | nil =>
      intro i v h _
      exfalso
      simp [matchValueAt] at h
  | cons c rest ih =>
      intro i v h hfirst
      cases i with
      | zero =>
          by_cases hc : c = '('
          · subst hc
            rw [matchValueAt_zero_lparen] at h
            rw [findParen_cons_lparen]
            split at h
            · rename_i hcond
              rw [if_pos hcond]
              exact h
            · exact absurd h (by simp)
          · exact absurd h (by rw [matchValueAt_zero_of_ne c rest hc]; simp)
      | succ n =>
          have h0 : matchValueAt (c :: rest) 0 = none :=
            hfirst 0 (Nat.succ_pos n)
          have hn : matchValueAt rest n = some v := by
            rw [← matchValueAt_succ]
            exact h
          have hfirstn : ∀ k, k < n → matchValueAt rest k = none := by
            intro k hk
            rw [← matchValueAt_succ c rest k]
            exact hfirst (k + 1) (Nat.succ_lt_succ hk)
          have hrest := ih n v hn hfirstn
          by_cases hc : c = '('
          · subst hc
            rw [matchValueAt_zero_lparen] at h0
            rw [findParen_cons_lparen]
            split at h0
            · exact absurd h0 (by simp)
            · rename_i hcond
              rw [if_neg hcond]
              exact hrest
          · rw [findParen_skip c rest hc]
            exact hrest

/-- Claim C9: for every message containing two or more parenthesized
decimal numbers — a match of the pattern at index i with value v,
another at a later index j, and no match at any index before i — both
functions take v, the first number in left-to-right order, as the
parsed status, and classify the failure from it alone, ignoring the
later numbers. -/
theorem first_paren_number_wins :
    ∀ (m : String) (i j v w : Nat),
      matchValueAt m.data i = some v →
      matchValueAt m.data j = some w →
      i < j →
      (∀ k, k < i → matchValueAt m.data k = none) →
      extractStatus m = some v ∧
      getFulfillmentOrders (CallOutcome.err m) =
        OrdersResult.failure (classifyCode v m) ∧
      getFulfillments (CallOutcome.err m) =
        OrderResult.failure (classifyCode v m) := by
  intro m i j v w hi _ _ hfirst
  have hext : extractStatus m = some v :=
    findParen_eq_first_match m.data i v hi hfirst
  exact ⟨hext, getFulfillmentOrders_err _ _ hext, getFulfillments_err _ _ hext⟩

theorem first_paren_number_wins_check :
    extractStatus "upstream (timeout) (404): retry (60)" = some 404 ∧
    getFulfillmentOrders
        (CallOutcome.err "upstream (timeout) (404): retry (60)") =
      OrdersResult.failure
        { success := false
          httpStatus := 404
          error := "SHOPIFY_FULFILLMENT_FETCH_ERROR"
          message := "upstream (timeout) (404): retry (60)"
          fulfillments := []
          count := 0
          fulfillmentIds := [] } := by
  have h := first_paren_number_wins "upstream (timeout) (404): retry (60)"
    19 32 404 60 (by decide) (by decide) (by decide) (by decide)
  refine ⟨h.1, ?_⟩
  rw [h.2.1]
  rfl

/-- Claim C10: classification keys only on the first parenthesized
number: every message whose first parenthesized number parses to 401 or
403 — whatever surrounds it — is classified SHOPIFY_ADMIN_AUTH_ERROR by
both functions; in particular a `(401)` preceded by no other `(` drives
the classification wherever it sits in the message. -/
theorem auth_from_any_message :
    (∀ message : String,
      extractStatus message = some 401 ∨ extractStatus message = some 403 →
      (∃ r, getFulfillmentOrders (CallOutcome.err message) =
        OrdersResult.failure r ∧ r.error = "SHOPIFY_ADMIN_AUTH_ERROR") ∧
      (∃ r, getFulfillments (CallOutcome.err message) =
        OrderResult.failure r ∧ r.error = "SHOPIFY_ADMIN_AUTH_ERROR")) ∧
    (∀ pre post : List Char, '(' ∉ pre →
      ∃ r, getFulfillmentOrders
          (CallOutcome.err
            (String.mk (pre ++ ('(' :: ['4', '0', '1']) ++ (')' :: post)))) =
        OrdersResult.failure r ∧ r.error = "SHOPIFY_ADMIN_AUTH_ERROR") := by
  constructor
  · intro m hm
    rcases hm with h | h
    · exact ⟨⟨_, getFulfillmentOrders_err m 401 h, by simp [classifyCode]⟩,
        ⟨_, getFulfillments_err m 401 h, by simp [classifyCode]⟩⟩
    · exact ⟨⟨_, getFulfillmentOrders_err m 403 h, by simp [classifyCode]⟩,
        ⟨_, getFulfillments_err m 403 h, by simp [classifyCode]⟩⟩
  · intro pre post hpre
    have hval : digitsVal ['4', '0', '1'] = 401 := by decide
    have hext :
        extractStatus (String.mk (pre ++ ('(' :: ['4', '0', '1']) ++ (')' :: post))) =
          some 401 := by
      rw [extractStatus_mk]
      have h4 := findParen_match pre hpre ['4', '0', '1'] post
        (by decide) (by decide)
      rw [hval] at h4
      exact h4
    exact ⟨_, getFulfillmentOrders_err _ 401 hext, by simp [classifyCode]⟩

theorem auth_from_any_message_check :
    extractStatus "weird upstream reply (403) while refunding" = some 403 ∧
    ∃ r, getFulfillmentOrders
        (CallOutcome.err "weird upstream reply (403) while refunding") =
      OrdersResult.failure r ∧ r.error = "SHOPIFY_ADMIN_AUTH_ERROR" :=
  ⟨rfl,
    (auth_from_any_message.1 "weird upstream reply (403) while refunding"
      (Or.inr rfl)).1⟩

end Shopify
